import Mathlib

/-!
# Verification of the local (in-process) transport layer

Shallow embedding of the TypeScript local transport:

* `LocalTransportRegistry` (src/unnamed/part_002, class `LocalTransportRegistry`):
  a `Map` from session id to a callbacks object, with `register`, `unregister`
  and `send`; `send` looks up the target and, if present, schedules delivery of
  the message via `setTimeout(..., 0)` — a FIFO deferred-task queue.
* `LocalServerTransport` (src/src/server/local.ts): `_connected` flag,
  `sessionId`, optional `_clientId` set by `_setClientId`; `start`, `send`,
  `close`.
* `LocalClientTransport` (src/unnamed/part_000): `_connected` flag,
  `sessionId`, `_serverTransport` handle; `start` (performs the handshake
  `_setClientId`), `send`, `close`.

Endpoint objects live in a heap `eps : List Ep` and are named by their index
(an object reference).  Session identifiers are modelled as `Nat`.  The
registry is an association list with `Map` semantics (at most one entry per
key; `set` overwrites in place, `delete` removes the entry).  A registry entry
maps a session id to the heap index of the endpoint whose `onmessage` the
registered callbacks object forwards to.  The `setTimeout` queue is a FIFO
list of pending tasks `(ref, message)`: the closure passed to `setTimeout`
captures the callbacks object (hence the endpoint reference), not the session
id, so a task outlives unregistration.  Invocations of the `onmessage`
observer are recorded in `delivered`, invocations of the `onclose` observer in
`closeLog`.

Each TypeScript method becomes a function `Sys M → Option TErr × Sys M`: the
first component is `some e` when the method throws (with `TErr` mirroring the
thrown error message), and the second component is the state of the whole
system when the method returns or throws, mirroring the order of mutations in
the method body.
-/

set_option autoImplicit false

namespace LocalTransport

/-- Errors thrown by the transport layer, one constructor per `throw` site in
the source (the string thrown in TypeScript is noted on each constructor). -/
inductive TErr where
  /-- "LocalServerTransport/LocalClientTransport already started!" -/
  | alreadyStarted
  /-- "Not connected" -/
  | notConnected
  /-- "No client connected" (server `send` with no `_clientId`) -/
  | noClientConnected
  /-- "No server transport provided" (client `start` with no handle) -/
  | noServerProvided
  /-- "No server transport connected" (client `send` with no handle) -/
  | noServerConnected
  /-- "Transport with ID ... not found" (registry `send` lookup failure) -/
  | transportNotFound (id : Nat)
  /-- Model artifact: a method call through a dangling heap reference.
  Unreachable for endpoints actually allocated by a constructor. -/
  | invalidRef
  deriving DecidableEq, Repr

/-- One endpoint object.  `sessionId` and `connected` exist in both classes;
`clientId` is the server field `_clientId` (unused by clients) and `serverRef`
is the client field `_serverTransport` (a heap reference; unused by servers). -/
structure Ep where
  sessionId : Nat
  connected : Bool
  clientId : Option Nat
  serverRef : Option Nat
  deriving DecidableEq, Repr

/-- The whole system: the endpoint heap, the registry table, the pending
`setTimeout` tasks in FIFO order, and the two observer-invocation logs. -/
structure Sys (M : Type) where
  eps : List Ep
  registry : List (Nat × Nat)
  tasks : List (Nat × M)
  delivered : List (Nat × M)
  closeLog : List Nat
  deriving DecidableEq, Repr

/-- The empty system: no endpoints, empty registry, no pending tasks. -/
def initSys (M : Type) : Sys M := ⟨[], [], [], [], []⟩

/-! ## The registry table (`Map` on session ids) -/

/-- `Map.set`: insert or overwrite the entry for `id`. -/
def setEntry (id v : Nat) : List (Nat × Nat) → List (Nat × Nat)
  | [] => [(id, v)]
  | (k, w) :: rest => if k = id then (id, v) :: rest else (k, w) :: setEntry id v rest

/-- `Map.delete`: remove the entry for `id` (at most one exists). -/
def delEntry (id : Nat) : List (Nat × Nat) → List (Nat × Nat)
  | [] => []
  | (k, w) :: rest => if k = id then rest else (k, w) :: delEntry id rest

/-- `Map.get`: look up the entry for `id`. -/
def lookupEntry (id : Nat) : List (Nat × Nat) → Option Nat
  | [] => none
  | (k, w) :: rest => if k = id then some w else lookupEntry id rest

/-! ## `LocalTransportRegistry` -/

/-- `LocalTransportRegistry.register(id, callbacks)`: inserts or overwrites
the entry for `id`.  `ref` is the endpoint the callbacks object closes over. -/
def regRegister (id ref : Nat) {M : Type} (s : Sys M) : Sys M :=
  { s with registry := setEntry id ref s.registry }

/-- `LocalTransportRegistry.unregister(id)`: deletes the entry for `id`. -/
def regUnregister (id : Nat) {M : Type} (s : Sys M) : Sys M :=
  { s with registry := delEntry id s.registry }

/-- `LocalTransportRegistry.send(targetId, message)`: looks up `targetId`;
throws "Transport with ID ... not found" if absent; otherwise schedules a
deferred delivery task via `setTimeout(..., 0)`.  The scheduled closure
captures the callbacks object (modelled by the endpoint reference), so the
enqueued task records the reference, not the session id. -/
def regSend (targetId : Nat) {M : Type} (m : M) (s : Sys M) : Option TErr × Sys M :=
  match lookupEntry targetId s.registry with
  | none => (some (.transportNotFound targetId), s)
  | some ref => (none, { s with tasks := s.tasks ++ [(ref, m)] })

/-! ## The cooperative scheduler (`setTimeout` queue) -/

/-- Run the oldest pending deferred task: `target.onmessage?.(message)`.
The invocation is unconditional — the closure holds the callbacks object
directly, whether or not the session id is still registered. -/
def runTask {M : Type} (s : Sys M) : Sys M :=
  match s.tasks with
  | [] => s
  | t :: rest => { s with tasks := rest, delivered := s.delivered ++ [t] }

/-- Run `n` scheduler turns. -/
def runSteps {M : Type} : Nat → Sys M → Sys M
  | 0, s => s
  | n + 1, s => runSteps n (runTask s)

/-- Drain the deferred-task queue completely, in FIFO order. -/
def runAll {M : Type} (s : Sys M) : Sys M := runSteps s.tasks.length s

/-! ## `LocalServerTransport` -/

/-- `new LocalServerTransport(id)`: allocates the endpoint (`_connected =
false`, no `_clientId`) and registers it under `id` with a callbacks object
forwarding to its `onmessage` observer.  The caller supplies the session id
(in the source, `id || generateUUID()`). -/
def serverNew (id : Nat) {M : Type} (s : Sys M) : Sys M :=
  { s with eps := s.eps ++ [⟨id, false, none, none⟩],
           registry := setEntry id s.eps.length s.registry }

/-- `LocalServerTransport.start()`: throws "already started!" if
`_connected`; otherwise sets `_connected = true`. -/
def serverStart (i : Nat) {M : Type} (s : Sys M) : Option TErr × Sys M :=
  match s.eps[i]? with
  | none => (some .invalidRef, s)
  | some e =>
    if e.connected then (some .alreadyStarted, s)
    else (none, { s with eps := s.eps.set i { e with connected := true } })

/-- `LocalServerTransport.send(message)`: throws "Not connected" if not
`_connected`, "No client connected" if `_clientId` is unset; otherwise
`this._registry.send(this._clientId, message)`. -/
def serverSend (i : Nat) {M : Type} (m : M) (s : Sys M) : Option TErr × Sys M :=
  match s.eps[i]? with
  | none => (some .invalidRef, s)
  | some e =>
    if e.connected then
      match e.clientId with
      | none => (some .noClientConnected, s)
      | some cid => regSend cid m s
    else (some .notConnected, s)

/-- `LocalServerTransport.close()`: if `_connected`, unregisters
`this.sessionId`, clears `_connected`, fires `onclose`; else a no-op. -/
def serverClose (i : Nat) {M : Type} (s : Sys M) : Option TErr × Sys M :=
  match s.eps[i]? with
  | none => (some .invalidRef, s)
  | some e =>
    if e.connected then
      (none, { s with registry := delEntry e.sessionId s.registry,
                      eps := s.eps.set i { e with connected := false },
                      closeLog := s.closeLog ++ [i] })
    else (none, s)

/-- `LocalServerTransport._setClientId(clientId)` applied to the endpoint at
heap index `sref` (a no-op on a dangling reference, which is unreachable). -/
def setClientId (sref cid : Nat) : List Ep → List Ep
  | eps =>
    match eps[sref]? with
    | none => eps
    | some srv => eps.set sref { srv with clientId := some cid }

/-! ## `LocalClientTransport` -/

/-- `new LocalClientTransport(serverTransport)`: allocates the endpoint
(`_connected = false`, `_serverTransport = sref`) and registers it under `id`
with a callbacks object forwarding to its `onmessage` observer.  The caller
supplies the session id (in the source, `generateUUID()`). -/
def clientNew (id sref : Nat) {M : Type} (s : Sys M) : Sys M :=
  { s with eps := s.eps ++ [⟨id, false, none, some sref⟩],
           registry := setEntry id s.eps.length s.registry }

/-- `LocalClientTransport.start()`: throws "already started!" if
`_connected`, "No server transport provided" if the handle is unset;
otherwise the handshake `this._serverTransport._setClientId(this.sessionId)`
followed by `_connected = true`. -/
def clientStart (i : Nat) {M : Type} (s : Sys M) : Option TErr × Sys M :=
  match s.eps[i]? with
  | none => (some .invalidRef, s)
  | some e =>
    if e.connected then (some .alreadyStarted, s)
    else
      match e.serverRef with
      | none => (some .noServerProvided, s)
      | some sref =>
        let eps1 := setClientId sref e.sessionId s.eps
        (none, { s with eps := eps1.set i { eps1[i]?.getD e with connected := true } })

/-- `LocalClientTransport.send(message)`: throws "Not connected" if not
`_connected`, "No server transport connected" if the handle is unset;
otherwise `this._registry.send(this._serverTransport.sessionId, message)`. -/
def clientSend (i : Nat) {M : Type} (m : M) (s : Sys M) : Option TErr × Sys M :=
  match s.eps[i]? with
  | none => (some .invalidRef, s)
  | some e =>
    if e.connected then
      match e.serverRef with
      | none => (some .noServerConnected, s)
      | some sref =>
        match s.eps[sref]? with
        | none => (some .invalidRef, s)
        | some srv => regSend srv.sessionId m s
    else (some .notConnected, s)

/-- `LocalClientTransport.close()`: textually identical to the server's
`close` — if `_connected`, unregisters `this.sessionId`, clears `_connected`,
fires `onclose`; else a no-op. -/
def clientClose (i : Nat) {M : Type} (s : Sys M) : Option TErr × Sys M :=
  match s.eps[i]? with
  | none => (some .invalidRef, s)
  | some e =>
    if e.connected then
      (none, { s with registry := delEntry e.sessionId s.registry,
                      eps := s.eps.set i { e with connected := false },
                      closeLog := s.closeLog ++ [i] })
    else (none, s)

/-! ## Derived notions -/

/-- The messages an endpoint's `onmessage` observer has received, in order. -/
def receivedBy (j : Nat) {M : Type} (s : Sys M) : List M :=
  (s.delivered.filter (fun p => p.1 == j)).map Prod.snd

/-- `registry.send` applied to a whole sequence of messages, stopping at the
first error (none occurs when the target stays registered). -/
def sendSeq (t : Nat) {M : Type} (ms : List M) (s : Sys M) : Option TErr × Sys M :=
  match ms with
  | [] => (none, s)
  | m :: rest =>
    match regSend t m s with
    | (none, s1) => sendSeq t rest s1
    | (some e, s1) => (some e, s1)

/-- `close()` called `n` times in a row on the endpoint at index `i`
(`close` never throws, so the intermediate results are just threaded). -/
def serverCloseN (i : Nat) {M : Type} : Nat → Sys M → Sys M
  | 0, s => s
  | n + 1, s => serverCloseN i n (serverClose i s).2

/-! ## Scheduler lemmas -/

theorem runAll_eq {M : Type} (s : Sys M) :
    runAll s = { s with tasks := [], delivered := s.delivered ++ s.tasks } := by
  obtain ⟨eps, reg, ts, dv, cl⟩ := s
  show runSteps ts.length _ = _
  induction ts generalizing dv with
  | nil => simp [runSteps]
  | cons t rest ih =>
    show runSteps rest.length (runTask _) = _
    have hstep : runTask (⟨eps, reg, t :: rest, dv, cl⟩ : Sys M)
        = ⟨eps, reg, rest, dv ++ [t], cl⟩ := rfl
    rw [hstep, ih (dv ++ [t])]
    simp

theorem sendSeq_ok {M : Type} (t j : Nat) (ms : List M) (s : Sys M)
    (h : lookupEntry t s.registry = some j) :
    sendSeq t ms s = (none, { s with tasks := s.tasks ++ ms.map (fun m => (j, m)) }) := by
  induction ms generalizing s with
  | nil => simp [sendSeq]
  | cons m rest ih =>
    have hsend : regSend t m s = (none, { s with tasks := s.tasks ++ [(j, m)] }) := by
      simp [regSend, h]
    rw [sendSeq, hsend]
    show sendSeq t rest _ = _
    rw [ih { s with tasks := s.tasks ++ [(j, m)] } h]
    simp

/-! ## Canonical scenarios

The usual wiring: one server constructed first (session id 0, heap ref 0),
one client constructed with a handle to it (session id 1, heap ref 1). -/

/-- `new LocalServerTransport()` then `new LocalClientTransport(server)`. -/
def pairSys (M : Type) : Sys M := clientNew 1 0 (serverNew 0 (initSys M))

/-- A lone server taken through `start()` then `close()`. -/
def closedServerTrace (M : Type) : Sys M :=
  (serverClose 0 (serverStart 0 (serverNew 0 (initSys M))).2).2

/-- A server/client pair whose client is taken through `start()` then
`close()`. -/
def closedClientTrace (M : Type) : Sys M :=
  (clientClose 1 (clientStart 1 (pairSys M)).2).2

/-- A lone server taken through `start()`, `close()`, then `start()` again. -/
def restartTrace (M : Type) : Sys M :=
  (serverStart 0 (closedServerTrace M)).2

/-- A server (id 10, ref 0) and two clients of it (ids 20 and 30, refs 1 and
2), the server started and both clients started in the order ref 1, ref 2. -/
def twoClientTrace1 (M : Type) : Sys M :=
  (clientStart 2 (clientStart 1
    (serverStart 0 (clientNew 30 0 (clientNew 20 0 (serverNew 10 (initSys M))))).2).2).2

/-- Same endpoints as `twoClientTrace1` but the clients started in the order
ref 2, ref 1. -/
def twoClientTrace2 (M : Type) : Sys M :=
  (clientStart 1 (clientStart 2
    (serverStart 0 (clientNew 30 0 (clientNew 20 0 (serverNew 10 (initSys M))))).2).2).2

/-! ## The claims -/

/-- C1: after `serverTransport.start()` and `clientTransport.start()` have
both succeeded (the handshake has recorded the client's session id in the
server), `serverTransport.send(m)` succeeds for every message `m`, enqueueing
one deferred delivery task for the client; when the deferred tasks run, the
client endpoint's on-message observer is invoked with exactly `m`,
unmodified. -/
theorem server_send_after_handshake_delivers {M : Type} (m : M) :
    (serverStart 0 (pairSys M)).1 = none ∧
    (clientStart 1 (serverStart 0 (pairSys M)).2).1 = none ∧
    (serverSend 0 m (clientStart 1 (serverStart 0 (pairSys M)).2).2).1 = none ∧
    (serverSend 0 m (clientStart 1 (serverStart 0 (pairSys M)).2).2).2.tasks = [(1, m)] ∧
    (runAll (serverSend 0 m (clientStart 1 (serverStart 0 (pairSys M)).2).2).2).delivered
      = [(1, m)] :=
  ⟨rfl, rfl, rfl, rfl, rfl⟩

/-- C2 counterexample: a server endpoint taken through `start()` then
`close()` is in the Closed state, yet a further `start()` succeeds (no error)
and returns the endpoint to Started (`_connected = true`) — so `start()` does
not fail on a closed endpoint and Closed is not terminal. -/
theorem start_after_close_succeeds :
    (serverStart 0 (closedServerTrace Nat)).1 = none ∧
    (serverStart 0 (closedServerTrace Nat)).2.eps[0]?
      = some ⟨0, true, none, none⟩ :=
  ⟨rfl, rfl⟩

/-- C2 amended: `start()` fails with AlreadyStarted exactly when the
endpoint's connected flag is currently set (for a client, a missing server
handle is the only other failure); since `close()` clears the flag, a
`start()` after `close()` succeeds — the Closed state is not terminal. -/
theorem start_fails_iff_connected {M : Type} (s : Sys M) (i : Nat) (e : Ep)
    (h : s.eps[i]? = some e) :
    ((serverStart i s).1 = some TErr.alreadyStarted ↔ e.connected = true) ∧
    ((clientStart i s).1 = some TErr.alreadyStarted ↔ e.connected = true) ∧
    (e.connected = false → (serverStart i s).1 = none) ∧
    (e.connected = false → ∀ sref, e.serverRef = some sref → (clientStart i s).1 = none) := by
  cases hc : e.connected with
  | true => simp [serverStart, clientStart, h, hc]
  | false => cases hsr : e.serverRef <;> simp [serverStart, clientStart, h, hc, hsr]

/-- Witness for `start_fails_iff_connected`: a second `start()` on a started
server fails with AlreadyStarted. -/
theorem start_fails_iff_connected_witness :
    (serverStart 0 (serverStart 0 (serverNew 0 (initSys Nat))).2).1
      = some TErr.alreadyStarted :=
  (start_fails_iff_connected (serverStart 0 (serverNew 0 (initSys Nat))).2 0
    ⟨0, true, none, none⟩ rfl).1.mpr rfl

/-- C5: `send(m)` on an endpoint whose connected flag is unset (in
particular, one that has never been started) fails with NotConnected — for
the server and the client alike — and leaves the whole system (registry,
task queue, delivery log) exactly unchanged, so nothing is handed to the
registry and no message is delivered to any handler. -/
theorem send_before_start_fails {M : Type} (i : Nat) (m : M) (s : Sys M) (e : Ep)
    (h : s.eps[i]? = some e) (hc : e.connected = false) :
    serverSend i m s = (some TErr.notConnected, s) ∧
    clientSend i m s = (some TErr.notConnected, s) := by
  simp [serverSend, clientSend, h, hc]

/-- Witness for `send_before_start_fails`: sending on the freshly constructed
(never started) pair fails with NotConnected on both endpoints. -/
theorem send_before_start_fails_witness :
    serverSend 0 (3 : Nat) (pairSys Nat) = (some TErr.notConnected, pairSys Nat) ∧
    clientSend 1 (3 : Nat) (pairSys Nat) = (some TErr.notConnected, pairSys Nat) :=
  ⟨(send_before_start_fails 0 3 (pairSys Nat) ⟨0, false, none, none⟩ rfl rfl).1,
   (send_before_start_fails 1 3 (pairSys Nat) ⟨1, false, none, some 0⟩ rfl rfl).2⟩

/-- C7: for an endpoint that was started and then closed — a lone server, and
a client of a server pair — a subsequent `send(m)` from that endpoint fails
with NotConnected, and a registry dispatch targeting that endpoint's session
identifier fails with the target-not-found error; in both cases the system is
unchanged. -/
theorem post_close_send_and_dispatch_fail {M : Type} (m : M) :
    serverSend 0 m (closedServerTrace M)
      = (some TErr.notConnected, closedServerTrace M) ∧
    regSend 0 m (closedServerTrace M)
      = (some (TErr.transportNotFound 0), closedServerTrace M) ∧
    clientSend 1 m (closedClientTrace M)
      = (some TErr.notConnected, closedClientTrace M) ∧
    regSend 1 m (closedClientTrace M)
      = (some (TErr.transportNotFound 1), closedClientTrace M) :=
  ⟨rfl, rfl, rfl, rfl⟩

/-- C9 counterexample: the reachable sequence `new LocalServerTransport()`,
`start()`, `close()`, `start()` leaves the endpoint connected (in its
connected lifetime) with no registry entry for its session identifier — the
identifier is not registered for the entire connected lifetime. -/
theorem restarted_endpoint_unregistered :
    (restartTrace Nat).eps[0]? = some ⟨0, true, none, none⟩ ∧
    lookupEntry 0 (restartTrace Nat).registry = none :=
  ⟨rfl, rfl⟩

/-- C9 amended: an endpoint's session identifier is registered from
construction (before `start()`) until the first `close()` performed while
connected; `close()` on a never-started endpoint does not unregister it, and
`start()` after `close()` reconnects without re-registering — so registration
coincides with the span from construction to the first connected `close()`,
not with the connected lifetime. -/
theorem registration_lifecycle (M : Type) :
    lookupEntry 0 (serverNew 0 (initSys M)).registry = some 0 ∧
    lookupEntry 0 (serverStart 0 (serverNew 0 (initSys M))).2.registry = some 0 ∧
    lookupEntry 0 (closedServerTrace M).registry = none ∧
    lookupEntry 0 (serverClose 0 (serverNew 0 (initSys M))).2.registry = some 0 ∧
    lookupEntry 0 (restartTrace M).registry = none ∧
    lookupEntry 1 (pairSys M).registry = some 1 ∧
    lookupEntry 1 (clientStart 1 (pairSys M)).2.registry = some 1 ∧
    lookupEntry 1 (closedClientTrace M).registry = none :=
  ⟨rfl, rfl, rfl, rfl, rfl, rfl, rfl, rfl⟩

set_option maxHeartbeats 4000000 in
/-- The two-client trace with start order ref 1, ref 2, evaluated. -/
theorem twoClientTrace1_eq (M : Type) : twoClientTrace1 M =
    ⟨[⟨10, true, some 30, none⟩, ⟨20, true, none, some 0⟩, ⟨30, true, none, some 0⟩],
      [(10, 0), (20, 1), (30, 2)], [], [], []⟩ := rfl

set_option maxHeartbeats 4000000 in
/-- The two-client trace with start order ref 2, ref 1, evaluated. -/
theorem twoClientTrace2_eq (M : Type) : twoClientTrace2 M =
    ⟨[⟨10, true, some 20, none⟩, ⟨20, true, none, some 0⟩, ⟨30, true, none, some 0⟩],
      [(10, 0), (20, 1), (30, 2)], [], [], []⟩ := rfl

/-- C10: the server's `_setClientId` hook overwrites on repeated invocation:
with two clients (session ids 20 and 30) of one server, after both handshakes
the server's recorded client id is the one from the most recent handshake (in
either start order), a subsequent `server.send(m)` dispatches to that client
only, and the earlier client's on-message observer receives nothing. -/
theorem last_handshake_wins {M : Type} (m : M) :
    (twoClientTrace1 M).eps[0]? = some ⟨10, true, some 30, none⟩ ∧
    (serverSend 0 m (twoClientTrace1 M)).1 = none ∧
    (runAll (serverSend 0 m (twoClientTrace1 M)).2).delivered = [(2, m)] ∧
    receivedBy 1 (runAll (serverSend 0 m (twoClientTrace1 M)).2) = [] ∧
    (twoClientTrace2 M).eps[0]? = some ⟨10, true, some 20, none⟩ ∧
    (serverSend 0 m (twoClientTrace2 M)).1 = none ∧
    (runAll (serverSend 0 m (twoClientTrace2 M)).2).delivered = [(1, m)] ∧
    receivedBy 2 (runAll (serverSend 0 m (twoClientTrace2 M)).2) = [] := by
  rw [twoClientTrace1_eq, twoClientTrace2_eq]
  exact ⟨rfl, rfl, rfl, rfl, rfl, rfl, rfl, rfl⟩

/-- C3: dispatching a sequence of messages `ms` through the registry to one
identifier `t` that is registered (to the endpoint `j`), with no interleaved
close, succeeds, enqueues one deferred task per message in dispatch order, and
— the deferred-task queue being strictly FIFO — the target's on-message
handler receives exactly `ms`, in order, once the queue is drained. -/
theorem fifo_per_target {M : Type} (t j : Nat) (ms : List M) (s : Sys M)
    (h : lookupEntry t s.registry = some j) :
    (sendSeq t ms s).1 = none ∧
    (sendSeq t ms s).2.tasks = s.tasks ++ ms.map (fun m => (j, m)) ∧
    ((runAll (sendSeq t ms s).2).delivered.filter (fun p => p.1 == j)).map Prod.snd
      = (((s.delivered ++ s.tasks).filter (fun p => p.1 == j)).map Prod.snd) ++ ms := by
  have hseq := sendSeq_ok t j ms s h
  have hmap : ∀ (l : List M),
      ((l.map (fun m => (j, m))).filter (fun p : Nat × M => p.1 == j)).map Prod.snd = l := by
    intro l
    induction l with
    | nil => rfl
    | cons x xs ih => simpa using ih
  refine ⟨by rw [hseq], by rw [hseq], ?_⟩
  rw [hseq, runAll_eq]
  simp only [List.filter_append, List.map_append, List.append_assoc, hmap]

/-- Witness for `fifo_per_target`: session id 1 is registered (to endpoint 1)
in the freshly constructed pair, so a three-message sequence dispatches
without error. -/
theorem fifo_per_target_witness :
    (sendSeq 1 [5, 6, 7] (pairSys Nat)).1 = none :=
  (fifo_per_target 1 1 [5, 6, 7] (pairSys Nat) rfl).1

/-- C4: when the target identifier is registered (to endpoint `j`) at
dispatch time, `registry.send` does not invoke any handler synchronously — it
only enqueues one deferred task — and the message is delivered when the queue
drains even if the target identifier is unregistered between dispatch and
delivery; when the target identifier is absent at dispatch time, the dispatch
fails synchronously with the target-not-found error and changes nothing. -/
theorem dispatch_defers_never_drops {M : Type} (t : Nat) (m : M) (s : Sys M) :
    (∀ j, lookupEntry t s.registry = some j →
      regSend t m s = (none, { s with tasks := s.tasks ++ [(j, m)] }) ∧
      (regSend t m s).2.delivered = s.delivered ∧
      (runAll (regUnregister t (regSend t m s).2)).delivered
        = s.delivered ++ (s.tasks ++ [(j, m)])) ∧
    (lookupEntry t s.registry = none →
      regSend t m s = (some (TErr.transportNotFound t), s)) := by
  constructor
  · intro j h
    have hs : regSend t m s = (none, { s with tasks := s.tasks ++ [(j, m)] }) := by
      simp [regSend, h]
    exact ⟨hs, by rw [hs], by rw [hs, runAll_eq]; simp [regUnregister]⟩
  · intro h
    simp [regSend, h]

/-- Witness for `dispatch_defers_never_drops`: in the freshly constructed
pair, dispatch to the registered id 1 enqueues a task, and dispatch to the
absent id 99 fails with the target-not-found error. -/
theorem dispatch_defers_never_drops_witness :
    regSend 1 (7 : Nat) (pairSys Nat)
      = (none, { pairSys Nat with tasks := (pairSys Nat).tasks ++ [(1, 7)] }) ∧
    regSend 99 (7 : Nat) (pairSys Nat)
      = (some (TErr.transportNotFound 99), pairSys Nat) :=
  ⟨((dispatch_defers_never_drops 1 7 (pairSys Nat)).1 1 rfl).1,
   (dispatch_defers_never_drops 99 7 (pairSys Nat)).2 rfl⟩

/-! ## Close lemmas -/

/-- The two `close()` methods are textually identical. -/
theorem clientClose_eq_serverClose {M : Type} (i : Nat) (s : Sys M) :
    clientClose i s = serverClose i s := rfl

theorem serverClose_connected {M : Type} (i : Nat) (s : Sys M) (e : Ep)
    (h : s.eps[i]? = some e) (hc : e.connected = true) :
    serverClose i s =
      (none, { s with registry := delEntry e.sessionId s.registry,
                      eps := s.eps.set i { e with connected := false },
                      closeLog := s.closeLog ++ [i] }) := by
  simp [serverClose, h, hc]

theorem serverClose_not_connected {M : Type} (i : Nat) (s : Sys M) (e : Ep)
    (h : s.eps[i]? = some e) (hc : e.connected = false) :
    serverClose i s = (none, s) := by
  simp [serverClose, h, hc]

/-- C6 counterexample: a server endpoint that was never started, closed
twice: no call errs, but the close observer fires zero times — not exactly
once, because no call ever transitions from the connected state. -/
theorem double_close_without_start_fires_zero :
    (serverClose 0 (serverClose 0 (serverNew 0 (initSys Nat))).2).1 = none ∧
    (serverClose 0 (serverClose 0 (serverNew 0 (initSys Nat))).2).2.closeLog = [] :=
  ⟨rfl, rfl⟩

/-- C6 amended: for an endpoint that is connected when the first `close()` is
called, calling `close()` N ≥ 1 times fires the close observer exactly once —
on the first call, the one that transitions out of the connected state — and
every later call is an error-free no-op (this holds verbatim for client
endpoints, whose `close()` is identical); an endpoint that was never started
fires the observer zero times. -/
theorem close_n_times_fires_once {M : Type} (i N : Nat) (s : Sys M) (e : Ep)
    (h : s.eps[i]? = some e) (hc : e.connected = true) (hN : 1 ≤ N) :
    (serverClose i s).1 = none ∧
    serverCloseN i N s = (serverClose i s).2 ∧
    (serverCloseN i N s).closeLog = s.closeLog ++ [i] ∧
    serverClose i (serverCloseN i N s) = (none, serverCloseN i N s) ∧
    clientClose i (serverCloseN i N s) = (none, serverCloseN i N s) ∧
    (∀ (s' : Sys M) (k : Nat), clientClose k s' = serverClose k s') := by
  obtain ⟨hlt, -⟩ := List.getElem?_eq_some.mp h
  have h1 := serverClose_connected i s e h hc
  set s1 : Sys M := { s with registry := delEntry e.sessionId s.registry,
                             eps := s.eps.set i { e with connected := false },
                             closeLog := s.closeLog ++ [i] } with hs1
  have hget1 : s1.eps[i]? = some { e with connected := false } :=
    List.getElem?_set_eq_of_lt _ hlt
  have hfix1 : serverClose i s1 = (none, s1) :=
    serverClose_not_connected i s1 { e with connected := false } hget1 rfl
  have hrec : ∀ (n : Nat) (s2 : Sys M), serverClose i s2 = (none, s2) →
      serverCloseN i n s2 = s2 := by
    intro n
    induction n with
    | zero => intro s2 _; rfl
    | succ k ih =>
      intro s2 hfix
      show serverCloseN i k (serverClose i s2).2 = s2
      rw [hfix]
      exact ih s2 hfix
  obtain ⟨n, rfl⟩ : ∃ n, N = n + 1 := ⟨N - 1, by omega⟩
  have hN1 : serverCloseN i (n + 1) s = serverCloseN i n s1 := by
    show serverCloseN i n (serverClose i s).2 = _
    rw [h1]
  have hall : serverCloseN i (n + 1) s = s1 := by rw [hN1, hrec n s1 hfix1]
  refine ⟨by rw [h1], by rw [hall, h1], by rw [hall], ?_, ?_, fun _ _ => rfl⟩
  · rw [hall]; exact hfix1
  · rw [clientClose_eq_serverClose, hall]; exact hfix1

/-- Witness for `close_n_times_fires_once`: a started server closed three
times fires its close observer exactly once. -/
theorem close_n_times_fires_once_witness :
    (serverCloseN 0 3 (serverStart 0 (serverNew 0 (initSys Nat))).2).closeLog
      = (serverStart 0 (serverNew 0 (initSys Nat))).2.closeLog ++ [0] :=
  (close_n_times_fires_once 0 3 (serverStart 0 (serverNew 0 (initSys Nat))).2
    ⟨0, true, none, none⟩ rfl rfl (by decide)).2.2.1

/-! ## Error-frame lemmas: a throwing call mutates nothing -/

theorem serverStart_fail_frame {M : Type} (i : Nat) (s : Sys M)
    (hf : (serverStart i s).1 ≠ none) : (serverStart i s).2 = s := by
  cases hge : s.eps[i]? with
  | none => simp [serverStart, hge]
  | some e =>
    cases hc : e.connected with
    | true => simp [serverStart, hge, hc]
    | false => exact absurd (by simp [serverStart, hge, hc]) hf

theorem clientStart_fail_frame {M : Type} (i : Nat) (s : Sys M)
    (hf : (clientStart i s).1 ≠ none) : (clientStart i s).2 = s := by
  cases hge : s.eps[i]? with
  | none => simp [clientStart, hge]
  | some e =>
    cases hc : e.connected with
    | true => simp [clientStart, hge, hc]
    | false =>
      cases hsr : e.serverRef with
      | none => simp [clientStart, hge, hc, hsr]
      | some sref => exact absurd (by simp [clientStart, hge, hc, hsr]) hf

theorem serverSend_fail_frame {M : Type} (i : Nat) (m : M) (s : Sys M)
    (hf : (serverSend i m s).1 ≠ none) : (serverSend i m s).2 = s := by
  cases hge : s.eps[i]? with
  | none => simp [serverSend, hge]
  | some e =>
    cases hc : e.connected with
    | false => simp [serverSend, hge, hc]
    | true =>
      cases hcid : e.clientId with
      | none => simp [serverSend, hge, hc, hcid]
      | some cid =>
        cases hl : lookupEntry cid s.registry with
        | none => simp [serverSend, regSend, hge, hc, hcid, hl]
        | some ref => exact absurd (by simp [serverSend, regSend, hge, hc, hcid, hl]) hf

theorem clientSend_fail_frame {M : Type} (i : Nat) (m : M) (s : Sys M)
    (hf : (clientSend i m s).1 ≠ none) : (clientSend i m s).2 = s := by
  cases hge : s.eps[i]? with
  | none => simp [clientSend, hge]
  | some e =>
    cases hc : e.connected with
    | false => simp [clientSend, hge, hc]
    | true =>
      cases hsr : e.serverRef with
      | none => simp [clientSend, hge, hc, hsr]
      | some sref =>
        cases hgs : s.eps[sref]? with
        | none => simp [clientSend, hge, hc, hsr, hgs]
        | some srv =>
          cases hl : lookupEntry srv.sessionId s.registry with
          | none => simp [clientSend, regSend, hge, hc, hsr, hgs, hl]
          | some ref =>
            exact absurd (by simp [clientSend, regSend, hge, hc, hsr, hgs, hl]) hf

theorem serverClose_fail_frame {M : Type} (i : Nat) (s : Sys M)
    (hf : (serverClose i s).1 ≠ none) : (serverClose i s).2 = s := by
  cases hge : s.eps[i]? with
  | none => simp [serverClose, hge]
  | some e =>
    cases hc : e.connected with
    | false => exact absurd (by simp [serverClose, hge, hc]) hf
    | true => exact absurd (by simp [serverClose, hge, hc]) hf

theorem regSend_fail_frame {M : Type} (t : Nat) (m : M) (s : Sys M)
    (hf : (regSend t m s).1 ≠ none) : (regSend t m s).2 = s := by
  cases hl : lookupEntry t s.registry with
  | none => simp [regSend, hl]
  | some ref => exact absurd (by simp [regSend, hl]) hf

/-- C8: every failing operation is side-effect-free — if `start()`, `send()`
or `close()` on either endpoint, or a registry dispatch, returns an error,
then the entire system state (endpoint connection states and recorded peer
identifiers, the registry table, and the deferred-delivery queue) is exactly
as it was before the call. -/
theorem failed_op_no_side_effect {M : Type} (s : Sys M) (i t : Nat) (m : M) :
    ((serverStart i s).1 ≠ none → (serverStart i s).2 = s) ∧
    ((clientStart i s).1 ≠ none → (clientStart i s).2 = s) ∧
    ((serverSend i m s).1 ≠ none → (serverSend i m s).2 = s) ∧
    ((clientSend i m s).1 ≠ none → (clientSend i m s).2 = s) ∧
    ((serverClose i s).1 ≠ none → (serverClose i s).2 = s) ∧
    ((clientClose i s).1 ≠ none → (clientClose i s).2 = s) ∧
    ((regSend t m s).1 ≠ none → (regSend t m s).2 = s) :=
  ⟨serverStart_fail_frame i s, clientStart_fail_frame i s,
   serverSend_fail_frame i m s, clientSend_fail_frame i m s,
   serverClose_fail_frame i s,
   fun hf => by
     rw [clientClose_eq_serverClose] at hf ⊢
     exact serverClose_fail_frame i s hf,
   regSend_fail_frame t m s⟩

/-- Witness for `failed_op_no_side_effect`: on the freshly constructed pair,
a send before start, a double start, and a dispatch to an absent id all fail
and leave the system untouched. -/
theorem failed_op_no_side_effect_witness :
    (serverSend 0 (5 : Nat) (pairSys Nat)).2 = pairSys Nat ∧
    (clientSend 1 (5 : Nat) (pairSys Nat)).2 = pairSys Nat ∧
    (regSend 99 (5 : Nat) (pairSys Nat)).2 = pairSys Nat ∧
    (serverStart 0 (serverStart 0 (serverNew 0 (initSys Nat))).2).2
      = (serverStart 0 (serverNew 0 (initSys Nat))).2 :=
  ⟨(failed_op_no_side_effect (pairSys Nat) 0 99 5).2.2.1 (by decide),
   (failed_op_no_side_effect (pairSys Nat) 1 99 5).2.2.2.1 (by decide),
   (failed_op_no_side_effect (pairSys Nat) 0 99 5).2.2.2.2.2.2 (by decide),
   (failed_op_no_side_effect (serverStart 0 (serverNew 0 (initSys Nat))).2 0 99 5).1
     (by decide)⟩

end LocalTransport
